import Mathlib

/-!
Shallow embedding of the atvjs-esm core (page.ts, handler.ts, menu module)
and proofs of the specification claims about it.

The embedding follows the TypeScript source:
  * `JSVal` models the JavaScript values that flow through the pipeline
    (truthiness matters for the `ready` resolver and for `cfg.url`).
  * `Cfg` models a `PageConfiguration`; optional fields are `Option`s,
    mirroring `undefined` versus defined properties.
  * `defaultsDeepPage` models `_.defaultsDeep(cfg, defaults)` against the
    module-level `defaults` object of page.ts (style "", template returning
    "", identity data transform, responseType "json").
  * `makePage` models the promise executor of page.ts `makePage`: the
    outcome of the returned promise is a `POutcome` (a promise whose
    executor returns without calling either continuation is `pending`),
    and the calls made to `ready` / `onError` are recorded.
-/

/-- JavaScript values relevant to the pipeline, with JS truthiness. -/
inductive JSVal where
  | undef
  | null
  | bool (b : Bool)
  | num (n : Int)
  | str (s : String)
  | arr
  | obj (id : Nat)
deriving DecidableEq, Repr

/-- JavaScript truthiness: `undefined`, `null`, `false`, `0` and `""` are
falsy; every other value (including arrays and objects) is truthy. -/
def jsTruthy : JSVal → Bool
  | .undef => false
  | .null => false
  | .bool b => b
  | .num n => n != 0
  | .str s => s != ""
  | .arr => true
  | .obj _ => true

/-- `template` field: a function of data or a literal string
(`((data: object) => string) | string`). -/
inductive TemplateV where
  | fn (f : JSVal → String)
  | str (s : String)

/-- `data` field: a transform function or a literal object
(`((d: object) => object) | object`). -/
inductive DataV where
  | fn (f : JSVal → JSVal)
  | obj (v : JSVal)

/-- `options.responseType` discriminator (`"json" | "text"`). -/
inductive RType where
  | json
  | text
deriving DecidableEq, Repr

/-- Transport options object (`Options["options"]` in page.ts); only
`responseType` participates in the page-level defaults merge. -/
structure AjaxOpts where
  responseType : Option RType
deriving DecidableEq, Repr

/-- Call-time page options (`PageOptions`, minimally a `replace` flag). -/
structure PageOpts where
  replace : Option Bool
deriving DecidableEq, Repr

/-- What a `ready` resolver does when invoked: it calls the resolve
continuation with some value, or the reject continuation with some value. -/
inductive ReadyAction where
  | callResolve (v : JSVal)
  | callReject (e : JSVal)

/-- A `PageConfiguration` (page.ts `Options` plus the fields `makePage`
reads). `ready` present means `_.isFunction(cfg.ready)` holds; `onError`
is modelled by its presence flag plus the recorded calls. -/
structure Cfg where
  style : Option String
  template : Option TemplateV
  data : Option DataV
  options : Option AjaxOpts
  ready : Option (PageOpts → ReadyAction)
  url : Option String
  onError : Bool
  afterReady : Bool
  name : Option String

/-- The module-level default template of page.ts: warns and returns "". -/
def defaultTemplate : TemplateV := .fn fun _ => ""

/-- The module-level default data transform of page.ts: identity. -/
def defaultData : DataV := .fn fun d => d

/-- `_.defaultsDeep(cfg, defaults)` against the page module defaults:
fills `style`, `template`, `data` when they are `undefined`, and recurses
into `options` filling `responseType` with `"json"`; an already-defined
value is never overwritten. -/
def defaultsDeepPage (cfg : Cfg) : Cfg :=
  { cfg with
    style := some (cfg.style.getD "")
    template := some (cfg.template.getD defaultTemplate)
    data := some (cfg.data.getD defaultData)
    options := some ⟨some (((cfg.options.getD ⟨none⟩).responseType).getD .json)⟩ }

/-- The document built by page.ts `makeDom` via the external
`Parser.dom(template, data)` collaborator: it records the template, the
transformed data passed to the parser, and the originating configuration
tagged onto the document (`Object.assign(doc, { page: cfg })`). -/
structure BuiltDoc where
  template : TemplateV
  payload : JSVal
  page : Cfg

/-- page.ts `_.defaults(cfg, defaults)`: the shallow variant applied by
`makeDom` and `prepareDom`; when `options` is defined it is kept wholesale
without recursing into `responseType`. -/
def defaultsShallowPage (cfg : Cfg) : Cfg :=
  { cfg with
    style := some (cfg.style.getD "")
    template := some (cfg.template.getD defaultTemplate)
    data := some (cfg.data.getD defaultData)
    options := some (cfg.options.getD ⟨some .json⟩) }

/-- page.ts `makeDom(cfg, response = [])`: JS default parameters replace an
`undefined` argument by the default `[]`; after the shallow defaults merge
the `data` transform is applied when it is a function (otherwise the
literal `data` object is used) and the result is handed to the external
`Parser.dom` together with `template`; `prepareDom` then applies the
style and attaches handlers to the produced external document (those act
on the external DOM and are modelled by the handler-state functions
below), and the configuration is tagged onto the document. -/
def makeDom (cfg : Cfg) (response : JSVal) : BuiltDoc :=
  let response := if response == .undef then .arr else response
  let cfg := defaultsShallowPage cfg
  { template := cfg.template.getD defaultTemplate
    payload :=
      match cfg.data with
      | some (.fn f) => f response
      | some (.obj v) => v
      | none => response
    page := cfg }

/-- A transport (`Ajax.get`) response: status and `.response` payload. -/
structure XhrM where
  status : Nat
  response : JSVal
deriving DecidableEq, Repr

/-- Result of the external transport collaborator: the promise returned by
`Ajax.get` either fulfills or rejects with the xhr object. -/
inductive TransportR where
  | success (xhr : XhrM)
  | failure (xhr : XhrM)

/-- Value a pipeline rejection carries: a `ready` reject argument, or the
raw failure xhr object from the transport. -/
inductive RejectV where
  | jsv (v : JSVal)
  | xhrv (x : XhrM)

/-- Outcome of one invocation of a page factory: the promise resolves with
a built document, resolves with `null`, rejects, or — when the executor
returns without calling either continuation — stays pending forever. -/
inductive POutcome where
  | resolvedDoc (d : BuiltDoc)
  | resolvedNull
  | rejected (e : RejectV)
  | pending

/-- One run of a page factory: the promise outcome plus the observable
calls the executor made to `ready` and to `onError`. -/
structure PageRun where
  outcome : POutcome
  readyCalled : List PageOpts
  onErrorCalled : List (JSVal × XhrM)

/-- `cfg.url` truthiness as tested by `else if (cfg.url)`. -/
def urlTruthy : Option String → Bool
  | none => false
  | some u => u != ""

/-- page.ts `makePage(cfg)(options)`: deep-merge defaults, then branch on
`_.isFunction(cfg.ready)`, else `cfg.url`, else resolve immediately.
In the `ready` branch, the resolve continuation resolves with
`makeDom(cfg, response)` when `response || _.isUndefined(response)` and
with `null` otherwise; the reject continuation is the promise `reject`.
In the `url` branch a transport failure calls `cfg.onError(xhr.response,
xhr)` when declared (leaving the promise unsettled) and rejects with the
raw xhr otherwise. The external transport is a parameter. -/
def makePage (transport : String → AjaxOpts → TransportR) (cfg : Cfg)
    (opts : PageOpts) : PageRun :=
  let cfg := defaultsDeepPage cfg
  match cfg.ready with
  | some r =>
      { outcome :=
          match r opts with
          | .callResolve v =>
              if jsTruthy v || v == .undef then .resolvedDoc (makeDom cfg v)
              else .resolvedNull
          | .callReject e => .rejected (.jsv e)
        readyCalled := [opts]
        onErrorCalled := [] }
  | none =>
      if urlTruthy cfg.url then
        match transport (cfg.url.getD "") (cfg.options.getD ⟨none⟩) with
        | .success x =>
            { outcome := .resolvedDoc (makeDom cfg x.response)
              readyCalled := []
              onErrorCalled := [] }
        | .failure x =>
            if cfg.onError then
              { outcome := .pending
                readyCalled := []
                onErrorCalled := [(x.response, x)] }
            else
              { outcome := .rejected (.xhrv x)
                readyCalled := []
                onErrorCalled := [] }
      else
        { outcome := .resolvedDoc (makeDom cfg (.arr))
          readyCalled := []
          onErrorCalled := [] }

/-!
Registry model: page.ts `create` / `get` over the module-level
`pages : Map<string, Page>`. Each `create` call builds a fresh `Page`
function via `makePage`; page identity is modelled by a fresh numeric id
(`nextF`), since two distinct invocations of `makePage` return two
distinct function objects.
-/

/-- `Map.set` on an association list with unique keys: replaces the entry
when the key is present, appends otherwise. -/
def mapSet : List (String × Nat) → String → Nat → List (String × Nat)
  | [], k, v => [(k, v)]
  | p :: m, k, v => if p.1 == k then (k, v) :: m else p :: mapSet m k v

/-- `Map.get` on an association list: the stored value or `undefined`. -/
def mapGet : List (String × Nat) → String → Option Nat
  | [], _ => none
  | p :: m, k => if p.1 == k then some p.2 else mapGet m k

/-- The page registry: the `pages` map plus the id supply for the next
factory `makePage` would produce. -/
structure Registry where
  pages : List (String × Nat)
  nextF : Nat
deriving DecidableEq, Repr

/-- Result of one page.ts `create(name, cfg)` call: the updated registry,
the factory returned to the caller, and whether the duplicate-name warning
fired (`pages.has(name)`); the operation itself never throws. -/
structure CreateRun where
  reg : Registry
  factory : Nat
  warnedDuplicate : Bool
deriving DecidableEq, Repr

/-- page.ts `create(name, cfg)` for a string name: warn when the name is
already registered, build a fresh page via `makePage`, store it with
`pages.set(name, p)` (last write wins) and return it. -/
def pageCreate (r : Registry) (name : String) : CreateRun :=
  let dup := (mapGet r.pages name).isSome
  let f := r.nextF
  { reg := { pages := mapSet r.pages name f, nextF := r.nextF + 1 }
    factory := f
    warnedDuplicate := dup }

/-- page.ts `get(name)`: `pages.get(name)`; never creates an entry. -/
def pageGet (r : Registry) (name : String) : Option Nat :=
  mapGet r.pages name

/-- `mapGet` after `mapSet` at the same key yields the new value. -/
theorem mapGet_mapSet_same (m : List (String × Nat)) (k : String) (v : Nat) :
    mapGet (mapSet m k v) k = some v := by
  induction m with
  | nil => simp [mapSet, mapGet]
  | cons p m ih =>
    by_cases hp : (p.1 == k) = true
    · simp [mapSet, mapGet, hp]
    · simp only [Bool.not_eq_true] at hp
      simp [mapSet, mapGet, hp, ih]

/-- The deep defaults merge leaves `ready` untouched. -/
theorem defaultsDeepPage_ready (cfg : Cfg) :
    (defaultsDeepPage cfg).ready = cfg.ready := rfl

/-- The deep defaults merge leaves `url` untouched. -/
theorem defaultsDeepPage_url (cfg : Cfg) :
    (defaultsDeepPage cfg).url = cfg.url := rfl

/-- The deep defaults merge leaves `onError` untouched. -/
theorem defaultsDeepPage_onError (cfg : Cfg) :
    (defaultsDeepPage cfg).onError = cfg.onError := rfl

/-- A transport stub whose promise always rejects. -/
def tFail : String → AjaxOpts → TransportR := fun _ _ => .failure ⟨500, .str "err"⟩

/-- The xhr object `tFail` rejects with. -/
def xhrFail : XhrM := ⟨500, .str "err"⟩

/-- Empty call-time page options. -/
def opts0 : PageOpts := ⟨none⟩

/-- A configuration with a `ready` resolver that calls resolve with `null`. -/
def readyNull : PageOpts → ReadyAction := fun _ => .callResolve .null

/-- Configuration whose `ready` resolver resolves with `null`. -/
def cfgReady : Cfg :=
  { style := none, template := none, data := none, options := none
    ready := some readyNull, url := none, onError := false
    afterReady := false, name := some "p" }

/-- Configuration with `url` and a declared `onError` handler. -/
def cfgUrlOnError : Cfg :=
  { style := none, template := none, data := none, options := none
    ready := none, url := some "/x", onError := true
    afterReady := false, name := some "p" }

/-- Configuration with neither `ready` nor `url`. -/
def cfgPlain : Cfg :=
  { style := none, template := none, data := none, options := none
    ready := none, url := none, onError := false
    afterReady := false, name := some "p" }

/-- C1: when the configuration's `ready` field is a function, invoking the
page factory calls `ready` with the call-time options (and the two
continuations, modelled by `ReadyAction`); the promise resolves to a built
document when the resolve continuation receives a truthy or undefined
value, resolves to `null` (not a rejection) for any other falsy value, and
rejects with exactly the passed value when the reject continuation is
called. -/
theorem claim_C1 (t : String → AjaxOpts → TransportR) (cfg : Cfg)
    (r : PageOpts → ReadyAction) (opts : PageOpts) (h : cfg.ready = some r) :
    (makePage t cfg opts).readyCalled = [opts] ∧
    (∀ v, r opts = .callResolve v → (jsTruthy v = true ∨ v = .undef) →
      (makePage t cfg opts).outcome
        = .resolvedDoc (makeDom (defaultsDeepPage cfg) v)) ∧
    (∀ v, r opts = .callResolve v → jsTruthy v = false → v ≠ .undef →
      (makePage t cfg opts).outcome = .resolvedNull) ∧
    (∀ e, r opts = .callReject e →
      (makePage t cfg opts).outcome = .rejected (.jsv e)) := by
  have hd : (defaultsDeepPage cfg).ready = some r := by
    rw [defaultsDeepPage_ready, h]
  refine ⟨?_, ?_, ?_, ?_⟩
  · simp [makePage, hd]
  · intro v hv htv
    rcases htv with ht | hu
    · simp [makePage, hd, hv, ht]
    · subst hu
      simp [makePage, hd, hv]
  · intro v hv ht hu
    simp [makePage, hd, hv, ht, hu]
  · intro e he
    simp [makePage, hd, he]

/-- C1 witness: a `ready` resolver calling resolve with `null` produces a
successful resolution of `null`, and `ready` received the call options. -/
theorem claim_C1_witness :
    (makePage tFail cfgReady opts0).outcome = POutcome.resolvedNull ∧
    (makePage tFail cfgReady opts0).readyCalled = [opts0] :=
  ⟨(claim_C1 tFail cfgReady readyNull opts0 rfl).2.2.1 .null rfl rfl
      (by decide),
   (claim_C1 tFail cfgReady readyNull opts0 rfl).1⟩

/-- C2 counterexample: with a `url` and a declared `onError`, a failed
transport calls `onError` with the failure payload but the promise
executor returns without calling resolve or reject, so the invocation's
promise stays pending forever — it does not resolve (to `undefined` or
anything else), contrary to the claim. -/
theorem claim_C2_counterexample :
    (makePage tFail cfgUrlOnError opts0).onErrorCalled
        = [(.str "err", xhrFail)] ∧
    (makePage tFail cfgUrlOnError opts0).outcome = POutcome.pending ∧
    (∀ d, (makePage tFail cfgUrlOnError opts0).outcome
        ≠ POutcome.resolvedDoc d) ∧
    (makePage tFail cfgUrlOnError opts0).outcome ≠ POutcome.resolvedNull := by
  refine ⟨rfl, rfl, ?_, ?_⟩
  · intro d hcontra
    rw [show (makePage tFail cfgUrlOnError opts0).outcome = POutcome.pending
        from rfl] at hcontra
    exact POutcome.noConfusion hcontra
  · intro hcontra
    rw [show (makePage tFail cfgUrlOnError opts0).outcome = POutcome.pending
        from rfl] at hcontra
    exact POutcome.noConfusion hcontra

/-- C2 amended: when the transport fails, a declared `onError` is invoked
with the failure payload and the raw xhr, and the promise never settles
(neither resolves nor rejects); with no `onError` declared the promise
rejects carrying the raw failure object. -/
theorem claim_C2_amended (t : String → AjaxOpts → TransportR) (cfg : Cfg)
    (opts : PageOpts) (x : XhrM) (hr : cfg.ready = none)
    (hu : urlTruthy cfg.url = true)
    (ht : t (cfg.url.getD "") ((defaultsDeepPage cfg).options.getD ⟨none⟩)
        = .failure x) :
    (cfg.onError = true →
      (makePage t cfg opts).outcome = POutcome.pending ∧
      (makePage t cfg opts).onErrorCalled = [(x.response, x)]) ∧
    (cfg.onError = false →
      (makePage t cfg opts).outcome = POutcome.rejected (.xhrv x) ∧
      (makePage t cfg opts).onErrorCalled = []) := by
  have hd : (defaultsDeepPage cfg).ready = none := by
    rw [defaultsDeepPage_ready, hr]
  have hdu : urlTruthy (defaultsDeepPage cfg).url = true := by
    rw [defaultsDeepPage_url]; exact hu
  have hdurl : (defaultsDeepPage cfg).url = cfg.url := defaultsDeepPage_url cfg
  constructor
  · intro he
    have hde : (defaultsDeepPage cfg).onError = true := by
      rw [defaultsDeepPage_onError, he]
    constructor
    · simp [makePage, hd, hdu, hu, hdurl, ht, hde]
    · simp [makePage, hd, hdu, hu, hdurl, ht, hde]
  · intro he
    have hde : (defaultsDeepPage cfg).onError = false := by
      rw [defaultsDeepPage_onError, he]
    constructor
    · simp [makePage, hd, hdu, hu, hdurl, ht, hde]
    · simp [makePage, hd, hdu, hu, hdurl, ht, hde]

/-- C2 amended witness: concrete failing transport with `onError` declared
leaves the promise pending and records the `onError` call. -/
theorem claim_C2_amended_witness :
    (makePage tFail cfgUrlOnError opts0).outcome = POutcome.pending ∧
    (makePage tFail cfgUrlOnError opts0).onErrorCalled
        = [(.str "err", xhrFail)] :=
  (claim_C2_amended tFail cfgUrlOnError opts0 xhrFail rfl rfl rfl).1 rfl

/-- C6: strict strategy priority `ready > url > none`. With `ready`
present the run is independent of the transport (the `url` branch never
runs); with only a truthy `url` the transport branch determines the
outcome; with neither, the promise resolves synchronously to a document
built from the merged configuration's `template`/`data` with the default
empty response payload, independent of the transport. -/
theorem claim_C6 (cfg : Cfg) (opts : PageOpts) :
    (∀ r, cfg.ready = some r →
      (∀ t t', makePage t cfg opts = makePage t' cfg opts) ∧
      (∀ t, (makePage t cfg opts).readyCalled = [opts])) ∧
    (cfg.ready = none → urlTruthy cfg.url = true →
      ∀ t x, t (cfg.url.getD "") ((defaultsDeepPage cfg).options.getD ⟨none⟩)
          = .success x →
        (makePage t cfg opts).outcome
            = .resolvedDoc (makeDom (defaultsDeepPage cfg) x.response) ∧
        (makePage t cfg opts).readyCalled = []) ∧
    (cfg.ready = none → urlTruthy cfg.url = false →
      ∀ t, makePage t cfg opts =
        { outcome := .resolvedDoc (makeDom (defaultsDeepPage cfg) .arr)
          readyCalled := []
          onErrorCalled := [] }) := by
  refine ⟨?_, ?_, ?_⟩
  · intro r h
    have hd : (defaultsDeepPage cfg).ready = some r := by
      rw [defaultsDeepPage_ready, h]
    exact ⟨fun t t' => by simp [makePage, hd], fun t => by simp [makePage, hd]⟩
  · intro h hu t x ht
    have hd : (defaultsDeepPage cfg).ready = none := by
      rw [defaultsDeepPage_ready, h]
    have hdu : urlTruthy (defaultsDeepPage cfg).url = true := by
      rw [defaultsDeepPage_url]; exact hu
    have hdurl : (defaultsDeepPage cfg).url = cfg.url := defaultsDeepPage_url cfg
    constructor
    · simp [makePage, hd, hdu, hu, hdurl, ht]
    · simp [makePage, hd, hdu, hu, hdurl, ht]
  · intro h hu t
    have hd : (defaultsDeepPage cfg).ready = none := by
      rw [defaultsDeepPage_ready, h]
    have hdu : urlTruthy (defaultsDeepPage cfg).url = false := by
      rw [defaultsDeepPage_url]; exact hu
    simp [makePage, hd, hdu]

/-- C6 witness: a configuration with neither `ready` nor `url` resolves
synchronously to the default-built document. -/
theorem claim_C6_witness :
    makePage tFail cfgPlain opts0 =
      { outcome := .resolvedDoc (makeDom (defaultsDeepPage cfgPlain) .arr)
        readyCalled := []
        onErrorCalled := [] } :=
  (claim_C6 cfgPlain opts0).2.2 rfl rfl tFail

/-- A key absent from every entry is not found by `mapGet`. -/
theorem mapGet_eq_none_of_not_mem (m : List (String × Nat)) (k : String)
    (h : ∀ v, (k, v) ∉ m) : mapGet m k = none := by
  induction m with
  | nil => rfl
  | cons p m ih =>
    have hp : (p.1 == k) = false := by
      rcases p with ⟨a, b⟩
      by_cases hak : a = k
      · subst hak
        exact absurd (List.mem_cons_self _ _) (h b)
      · simpa using hak
    simp only [mapGet, hp, Bool.false_eq_true, if_false]
    exact ih fun v hv => h v (List.mem_cons_of_mem _ hv)

/-- C7: registering twice under the same name replaces the entry without
throwing — the duplicate warning fires on the second `create`, `get`
afterwards returns the second (fresh) factory, which is distinct from the
first — and `get` for a name that was never registered returns the
absent-value signal (`undefined`) without creating anything. -/
theorem claim_C7 :
    (∀ (r : Registry) (n : String),
      pageGet (pageCreate (pageCreate r n).reg n).reg n
          = some (pageCreate (pageCreate r n).reg n).factory ∧
      (pageCreate (pageCreate r n).reg n).factory ≠ (pageCreate r n).factory ∧
      (pageCreate (pageCreate r n).reg n).warnedDuplicate = true) ∧
    (∀ (m : Registry) (k : String), (∀ v, (k, v) ∉ m.pages) →
      pageGet m k = none) := by
  constructor
  · intro r n
    refine ⟨?_, ?_, ?_⟩
    · exact mapGet_mapSet_same _ n _
    · show r.nextF + 1 ≠ r.nextF
      omega
    · show (mapGet (mapSet r.pages n r.nextF) n).isSome = true
      rw [mapGet_mapSet_same]
      rfl
  · intro m k h
    exact mapGet_eq_none_of_not_mem m.pages k h

/-- C7 witness: from an empty registry, registering "p" twice makes `get`
return the second factory (id 1, not 0) with the duplicate warning, and
`get` of an unregistered name returns the absent signal. -/
theorem claim_C7_witness :
    pageGet (pageCreate (pageCreate ⟨[], 0⟩ "p").reg "p").reg "p"
        = some (pageCreate (pageCreate ⟨[], 0⟩ "p").reg "p").factory ∧
    (pageCreate (pageCreate ⟨[], 0⟩ "p").reg "p").warnedDuplicate = true ∧
    pageGet ⟨[], 0⟩ "q" = none :=
  ⟨(claim_C7.1 ⟨[], 0⟩ "p").1, (claim_C7.1 ⟨[], 0⟩ "p").2.2,
   claim_C7.2 ⟨[], 0⟩ "q" fun v => List.not_mem_nil (("q", v))⟩

/-- C8: the deep defaults merge performed at factory invocation time fills
a missing `template` with the function returning `""`, a missing `data`
with the identity transform, and a missing `options.responseType` with
`json`; it never overwrites an already-defined `style`, `template`,
`data` or `responseType`; and it is idempotent. -/
theorem claim_C8 :
    (∀ cfg : Cfg, cfg.template = none →
      (defaultsDeepPage cfg).template = some defaultTemplate) ∧
    (∀ cfg : Cfg, cfg.data = none →
      (defaultsDeepPage cfg).data = some defaultData) ∧
    (∀ cfg : Cfg, cfg.options.bind (fun o => o.responseType) = none →
      (defaultsDeepPage cfg).options = some ⟨some RType.json⟩) ∧
    (∀ (cfg : Cfg) (tp : TemplateV), cfg.template = some tp →
      (defaultsDeepPage cfg).template = some tp) ∧
    (∀ (cfg : Cfg) (d : DataV), cfg.data = some d →
      (defaultsDeepPage cfg).data = some d) ∧
    (∀ (cfg : Cfg) (s : String), cfg.style = some s →
      (defaultsDeepPage cfg).style = some s) ∧
    (∀ (cfg : Cfg) (o : AjaxOpts) (rt : RType),
      cfg.options = some o → o.responseType = some rt →
      (defaultsDeepPage cfg).options = some ⟨some rt⟩) ∧
    (∀ cfg : Cfg, defaultsDeepPage (defaultsDeepPage cfg) = defaultsDeepPage cfg) := by
  refine ⟨?_, ?_, ?_, ?_, ?_, ?_, ?_, ?_⟩
  · intro cfg h; simp [defaultsDeepPage, h]
  · intro cfg h; simp [defaultsDeepPage, h]
  · intro cfg h
    rcases ho : cfg.options with _ | o
    · simp [defaultsDeepPage, ho]
    · have h2 : o.responseType = none := by
        rw [ho] at h
        simpa using h
      simp [defaultsDeepPage, ho, h2]
  · intro cfg tp h; simp [defaultsDeepPage, h]
  · intro cfg d h; simp [defaultsDeepPage, h]
  · intro cfg s h; simp [defaultsDeepPage, h]
  · intro cfg o rt h hrt; simp [defaultsDeepPage, h, hrt]
  · intro cfg; simp [defaultsDeepPage]

/-- C8 witness: merging the all-absent configuration fills the documented
defaults, keeps a defined responseType, and a second merge is a no-op. -/
theorem claim_C8_witness :
    (defaultsDeepPage cfgPlain).template = some defaultTemplate ∧
    (defaultsDeepPage cfgPlain).data = some defaultData ∧
    (defaultsDeepPage cfgPlain).options = some ⟨some RType.json⟩ ∧
    (defaultsDeepPage cfgUrlOnError).style = some "" ∧
    defaultsDeepPage (defaultsDeepPage cfgPlain) = defaultsDeepPage cfgPlain :=
  ⟨claim_C8.1 cfgPlain rfl, claim_C8.2.1 cfgPlain rfl,
   claim_C8.2.2.1 cfgPlain rfl, rfl,
   claim_C8.2.2.2.2.2.2.2 cfgPlain⟩

/-!
Event binder model (handler.ts `setListeners`). DOM event targets carry a
registered-listener list; `addEventListener` appends a listener unless an
identical (target, type, callback) triple is already registered, and
`removeEventListener` removes the listener whose (target, type, callback)
triple matches. The callback passed by `setListeners` is the wrapper
closure `(e) => f.call(cfg, e)`, a fresh function object per
(handler, element) pair per call; closure identity is modelled by a
counter (`nextId`) supplying a fresh id for every wrapper created.
-/

/-- An event target: the document itself or one of its elements. -/
inductive Tgt where
  | docT
  | elemT (i : Nat)
deriving DecidableEq, Repr

/-- A registered DOM listener: target, event type, identity of the wrapper
closure passed to `addEventListener`, and the underlying handler the
wrapper invokes (with the configuration bound as receiver). -/
structure Listener where
  target : Tgt
  ev : String
  cid : Nat
  tag : Nat
deriving DecidableEq, Repr

/-- DOM `addEventListener`: appends unless an identical
(target, type, callback) triple is already present. -/
def domAdd (ls : List Listener) (t : Tgt) (ev : String) (cid tag : Nat) :
    List Listener :=
  if ls.any (fun l => l.target == t && l.ev == ev && l.cid == cid) then ls
  else ls ++ [⟨t, ev, cid, tag⟩]

/-- DOM `removeEventListener`: removes the listener whose
(target, type, callback) triple matches the given one. -/
def domRemove (ls : List Listener) (t : Tgt) (ev : String) (cid : Nat) :
    List Listener :=
  ls.filter (fun l => !(l.target == t && l.ev == ev && l.cid == cid))

/-- Dispatching an event on a target fires the handlers of the listeners
registered there for that event type, in registration order. -/
def dispatchFired (ls : List Listener) (t : Tgt) (ev : String) : List Nat :=
  (ls.filter (fun l => l.target == t && l.ev == ev)).map (fun l => l.tag)

/-- A handler reference in an `events` entry: a function value, the name
of a configuration property, or some other (non-callable) value. -/
inductive HRef where
  | fnRef (tag : Nat)
  | nameRef (s : String)
  | nonFn
deriving DecidableEq, Repr

/-- The value bound to one event descriptor:
`(string | Function)[] | Function`. -/
inductive EventsVal where
  | single (h : HRef)
  | list (hs : List HRef)
deriving DecidableEq, Repr

/-- `if (!_.isArray(fns)) fns = [fns]`. -/
def normFns : EventsVal → List HRef
  | .single h => [h]
  | .list hs => hs

/-- A handler configuration (handler.ts `Config`): the optional `events`
map plus the configuration's own properties that are functions (name to
handler tag); resolving a name not in this table yields a non-callable. -/
structure CfgH where
  events : Option (List (String × EventsVal))
  fns : List (String × Nat)
deriving DecidableEq, Repr

/-- `fn = _.isString(fn) ? cfg[fn] : fn` followed by the
`_.isFunction(fn)` check: `some tag` when callable, `none` to skip. -/
def resolveRef (cfg : CfgH) : HRef → Option Nat
  | .fnRef tag => some tag
  | .nameRef s => (cfg.fns.find? (fun p => p.1 == s)).map (fun p => p.2)
  | .nonFn => none

/-- Split a character list on the space character (`String.split` on a
single-character separator, structurally recursive so that concrete
descriptors evaluate inside the kernel). -/
def splitSpace : List Char → List (List Char)
  | [] => [[]]
  | c :: cs =>
      if c = ' ' then [] :: splitSpace cs
      else
        match splitSpace cs with
        | [] => [[c]]
        | w :: ws => (c :: w) :: ws

/-- Rejoin character-list words with single spaces. -/
def joinSpace : List (List Char) → List Char
  | [] => []
  | [w] => w
  | w :: ws => w ++ ' ' :: joinSpace ws

/-- First token of an event descriptor (`e.split(" ")[0]`). -/
def evName (e : String) : String := ⟨(splitSpace e.data).headD []⟩

/-- Second token of an event descriptor (`e.split(" ")[1]`, `""` standing
for an absent/empty — falsy — token). -/
def selTok (e : String) : String := ⟨((splitSpace e.data).drop 1).headD []⟩

/-- `e.substring(e.indexOf(" ") + 1)`: everything after the first space. -/
def fullSelector (e : String) : String :=
  ⟨joinSpace ((splitSpace e.data).drop 1)⟩

/-- The document seen by the binder: `querySelectorAll` either returns the
matching element indices or throws (`Except.error`). -/
structure DocH where
  query : String → Except String (List Nat)

/-- The binder state: the registered listeners of the document and its
elements, plus the id supply for the next wrapper closure. -/
structure LState where
  listeners : List Listener
  nextId : Nat
deriving DecidableEq, Repr

/-- Per-descriptor body of handler.ts `setListeners`: split the descriptor
on the first space; with a selector, the target set is
`_.attempt(() => doc.querySelectorAll(selector))`, degraded to `[]` when
the query throws (`_.isError`); without one it is `[doc]`; then for every
resolved-callable handler and every target, call `addEventListener` /
`removeEventListener` with a freshly created wrapper closure. -/
def bindStep (doc : DocH) (cfg : CfgH) (add : Bool) (st : LState)
    (entry : String × EventsVal) : LState :=
  let ev := evName entry.1
  let tgts : List Tgt :=
    if selTok entry.1 != "" then
      match doc.query (fullSelector entry.1) with
      | .ok l => l.map Tgt.elemT
      | .error _ => []
    else [Tgt.docT]
  (normFns entry.2).foldl
    (fun st h =>
      match resolveRef cfg h with
      | none => st
      | some tag =>
          tgts.foldl
            (fun st t =>
              if add then
                ⟨domAdd st.listeners t ev st.nextId tag, st.nextId + 1⟩
              else
                ⟨domRemove st.listeners t ev st.nextId, st.nextId + 1⟩)
            st)
    st

/-- handler.ts `setListeners(doc, cfg, add)`: iterate the `events` map
(when it is an object) and process every descriptor. -/
def setListeners (doc : DocH) (cfg : CfgH) (add : Bool) (st : LState) :
    LState :=
  match cfg.events with
  | none => st
  | some evs => evs.foldl (bindStep doc cfg add) st

/-- A document in which the selector ".item" matches three elements and
every other selector query throws. -/
def docItems : DocH :=
  ⟨fun s => if s = ".item" then .ok [0, 1, 2] else .error "SyntaxError"⟩

/-- Events map binding "select .item" to an array of two handlers. -/
def cfgTwoHandlers : CfgH :=
  ⟨some [("select .item", .list [.fnRef 1, .fnRef 2])], []⟩

/-- The binder state before any attach: no listeners, fresh ids from 0. -/
def lst0 : LState := ⟨[], 0⟩

/-- State after the attach call of the C3 scenario. -/
def stAttach3 : LState := setListeners docItems cfgTwoHandlers true lst0

/-- State after the subsequent matching detach call of the C3 scenario. -/
def stDetach3 : LState := setListeners docItems cfgTwoHandlers false stAttach3

/-- C3, evaluated at the failing input: after the attach call a dispatch
fires each of the two handlers exactly once on each of the three matching
elements — but after the matching detach call the dispatch still fires
both handlers on every element instead of zero, because
`removeEventListener` is invoked with a freshly created wrapper closure
that is never identical to the wrapper registered by the attach call. -/
theorem claim_C3 :
    (dispatchFired stAttach3.listeners (.elemT 0) "select" = [1, 2] ∧
     dispatchFired stAttach3.listeners (.elemT 1) "select" = [1, 2] ∧
     dispatchFired stAttach3.listeners (.elemT 2) "select" = [1, 2]) ∧
    (dispatchFired stDetach3.listeners (.elemT 0) "select" = [1, 2] ∧
     dispatchFired stDetach3.listeners (.elemT 1) "select" = [1, 2] ∧
     dispatchFired stDetach3.listeners (.elemT 2) "select" = [1, 2]) ∧
    dispatchFired stDetach3.listeners (.elemT 0) "select" ≠ [] := by
  refine ⟨⟨?_, ?_, ?_⟩, ⟨?_, ?_, ?_⟩, ?_⟩ <;> decide

/-- When the selector query throws, the per-descriptor binder step is the
identity on the binder state. -/
theorem bindStep_query_error (doc : DocH) (cfg : CfgH) (add : Bool)
    (st : LState) (e : String) (fv : EventsVal) (err : String)
    (hsel : selTok e ≠ "") (hq : doc.query (fullSelector e) = .error err) :
    bindStep doc cfg add st (e, fv) = st := by
  unfold bindStep
  have hne : (selTok e != "") = true := by simpa using hsel
  simp only [hne, if_true, hq]
  generalize normFns fv = hs
  induction hs generalizing st with
  | nil => rfl
  | cons h hs ih =>
    simp only [List.foldl_cons]
    cases hr : resolveRef cfg h
    · exact ih st
    · exact ih st

/-- C9: when the selector query throws (malformed selector / unqueryable
document), the target set degrades to empty: the per-descriptor step
attaches/detaches nothing and leaves the binder state untouched (and, the
model being a total function, the failure never propagates to the
caller); likewise for a whole `events` map consisting of that
descriptor. -/
theorem claim_C9 (doc : DocH) (cfg : CfgH) (add : Bool) (st : LState)
    (e : String) (fv : EventsVal) (err : String)
    (hsel : selTok e ≠ "") (hq : doc.query (fullSelector e) = .error err) :
    bindStep doc cfg add st (e, fv) = st ∧
    setListeners doc { cfg with events := some [(e, fv)] } add st = st := by
  refine ⟨bindStep_query_error doc cfg add st e fv err hsel hq, ?_⟩
  show List.foldl (bindStep doc { cfg with events := some [(e, fv)] } add) st
      [(e, fv)] = st
  simp [bindStep_query_error doc { cfg with events := some [(e, fv)] } add st
      e fv err hsel hq]

/-- C9 witness: a throwing selector leaves the empty binder state empty on
attach. -/
theorem claim_C9_witness :
    setListeners docItems
        ⟨some [("select bad..sel", .list [.fnRef 1])], []⟩ true lst0 = lst0 :=
  (claim_C9 docItems ⟨none, []⟩ true lst0 "select bad..sel"
      (.list [.fnRef 1]) "SyntaxError" (by decide) rfl).2

/-!
Menu synchronization model (handler.ts `onMenuItemSelect`). The selected
element carries its `id` attribute, node name, `reloadOnSelect` attribute
(truthiness of `getAttribute`), the cached `pageDoc` property, and whether
a `page` factory reference is attached. The factory's promise settles
with a document, with `null`, or rejects; the model records the documents
published to the menu slot (`Menu.setDocument`), the
`Navigation.dismissModal` requests, and the number of factory
invocations.
-/

/-- The menu-item element state read and written by `onMenuItemSelect`. -/
structure MenuItemEl where
  id : String
  nodeName : String
  reload : Bool
  pageDoc : Option Nat
  hasPage : Bool
deriving DecidableEq, Repr

/-- How one invocation of the item's backing page factory settles:
success with a document id, success with `null`, or rejection. -/
inductive PageOutcomeM where
  | success (d : Option Nat)
  | failure (e : JSVal)
deriving DecidableEq, Repr

/-- A document published to a menu slot by `Menu.setDocument`: the loading
placeholder, the error placeholder built by `Navigation.getErrorDoc`, or a
resolved page document. -/
inductive Published where
  | loaderDoc
  | errDoc (e : JSVal)
  | docOf (d : Nat)
deriving DecidableEq, Repr

/-- Observable result of one selection event: the updated element, the
`Menu.setDocument` calls in order (document, menu id), the number of
`Navigation.dismissModal` requests, and how many times the backing page
factory was invoked. -/
structure SelectRun where
  el : MenuItemEl
  published : List (Published × String)
  dismissed : Nat
  invocations : Nat
deriving DecidableEq, Repr

/-- handler.ts `onMenuItemSelect`, given how the factory's promise settles
when it is invoked: for a `menuitem` element with a page reference, when
`pageDoc` is unset or the reload attribute is set, publish the loading
placeholder, invoke the factory once, and on settlement: a non-null
document is recorded on the element and published, then any open modal is
dismissed; a null document only dismisses the modal; a rejection publishes
the error placeholder and dismisses the modal. Otherwise ignore. -/
def onMenuItemSelect (el : MenuItemEl) (outcome : PageOutcomeM) : SelectRun :=
  if el.nodeName == "menuitem" then
    if (el.pageDoc.isNone || el.reload) && el.hasPage then
      match outcome with
      | .success (some d) =>
          { el := { el with pageDoc := some d }
            published := [(.loaderDoc, el.id), (.docOf d, el.id)]
            dismissed := 1
            invocations := 1 }
      | .success none =>
          { el := el
            published := [(.loaderDoc, el.id)]
            dismissed := 1
            invocations := 1 }
      | .failure e =>
          { el := el
            published := [(.loaderDoc, el.id), (.errDoc e, el.id)]
            dismissed := 1
            invocations := 1 }
    else { el := el, published := [], dismissed := 0, invocations := 0 }
  else { el := el, published := [], dismissed := 0, invocations := 0 }

/-- One step of a selection scenario: the reload attribute the element
carries at selection time, and how the factory settles if invoked. -/
structure SelectStep where
  reload : Bool
  outcome : PageOutcomeM
deriving DecidableEq, Repr

/-- One selection event on an item carrying its step's reload attribute,
accumulating the factory invocation count. -/
def selStep (acc : MenuItemEl × Nat) (s : SelectStep) : MenuItemEl × Nat :=
  let r := onMenuItemSelect { acc.1 with reload := s.reload } s.outcome
  (r.el, acc.2 + r.invocations)

/-- Run a sequence of selection events on one menu item, counting the
total number of backing page factory invocations. -/
def runSelections (el : MenuItemEl) (steps : List SelectStep) :
    MenuItemEl × Nat :=
  steps.foldl selStep (el, 0)

/-- A fresh menu item backed by a page, not yet resolved. -/
def elItem : MenuItemEl := ⟨"home", "menuitem", false, none, true⟩

/-- A menu item whose backing document is already recorded. -/
def elCached : MenuItemEl := ⟨"home", "menuitem", false, some 7, true⟩

/-- C4 counterexample: when the factory succeeds with a null document, the
handler publishes nothing beyond the loading placeholder — in particular
no error placeholder document reaches the menu slot, contrary to the
claim; only the modal dismissal is requested. -/
theorem claim_C4_counterexample :
    (onMenuItemSelect elItem (.success none)).published
        = [(.loaderDoc, "home")] ∧
    (onMenuItemSelect elItem (.success none)).dismissed = 1 ∧
    ¬ ∃ e, (Published.errDoc e, "home")
        ∈ (onMenuItemSelect elItem (.success none)).published := by
  refine ⟨by decide, by decide, ?_⟩
  rintro ⟨e, he⟩
  simp [onMenuItemSelect, elItem] at he

/-- C4 amended: on factory failure the handler publishes the error
placeholder to the item's menu slot and requests modal dismissal; on
success with a null document it publishes nothing further (no error
placeholder, `pageDoc` stays unset) and requests modal dismissal; on
success with a non-null document it records the document on the item,
publishes it, and requests modal dismissal. -/
theorem claim_C4_amended (el : MenuItemEl) (hn : el.nodeName = "menuitem")
    (hc : ((el.pageDoc.isNone || el.reload) && el.hasPage) = true) :
    (∀ e, onMenuItemSelect el (.failure e) =
      { el := el
        published := [(.loaderDoc, el.id), (.errDoc e, el.id)]
        dismissed := 1, invocations := 1 }) ∧
    (onMenuItemSelect el (.success none) =
      { el := el
        published := [(.loaderDoc, el.id)]
        dismissed := 1, invocations := 1 }) ∧
    (∀ d, onMenuItemSelect el (.success (some d)) =
      { el := { el with pageDoc := some d }
        published := [(.loaderDoc, el.id), (.docOf d, el.id)]
        dismissed := 1, invocations := 1 }) := by
  refine ⟨fun e => ?_, ?_, fun d => ?_⟩ <;> simp [onMenuItemSelect, hn, hc]

/-- C4 amended witness: concrete failure and success runs of a fresh
item. -/
theorem claim_C4_amended_witness :
    onMenuItemSelect elItem (.failure (.str "boom")) =
      { el := elItem
        published := [(.loaderDoc, "home"), (.errDoc (.str "boom"), "home")]
        dismissed := 1, invocations := 1 } ∧
    onMenuItemSelect elItem (.success (some 7)) =
      { el := { elItem with pageDoc := some 7 }
        published := [(.loaderDoc, "home"), (.docOf 7, "home")]
        dismissed := 1, invocations := 1 } :=
  ⟨(claim_C4_amended elItem rfl rfl).1 (.str "boom"),
   (claim_C4_amended elItem rfl rfl).2.2 7⟩

/-- On an item whose document is already recorded, a selection with the
reload attribute unset is skipped entirely. -/
theorem selStep_cached (el : MenuItemEl) (n : Nat) (d : Nat) (s : SelectStep)
    (hd : el.pageDoc = some d) (hr : s.reload = false) :
    selStep (el, n) s = ({ el with reload := false }, n) := by
  by_cases hn : (el.nodeName == "menuitem") = true
  · simp [selStep, onMenuItemSelect, hr, hd, hn]
  · simp only [Bool.not_eq_true] at hn
    simp [selStep, onMenuItemSelect, hr, hd, hn]

/-- Folding selection steps over a cached item never invokes the factory
and keeps the recorded document. -/
theorem foldl_selStep_cached (steps : List SelectStep) (el : MenuItemEl)
    (n d : Nat) (hd : el.pageDoc = some d)
    (hall : ∀ s ∈ steps, s.reload = false) :
    (steps.foldl selStep (el, n)).2 = n ∧
    (steps.foldl selStep (el, n)).1.pageDoc = some d := by
  induction steps generalizing el n with
  | nil => exact ⟨rfl, hd⟩
  | cons s steps ih =>
    rw [List.foldl_cons,
      selStep_cached el n d s hd (hall s (List.mem_cons_self _ _))]
    exact ih _ _ (by simpa using hd)
      (fun s hs => hall s (List.mem_cons_of_mem _ hs))

/-- C5 counterexample: a fresh item whose factory rejects is re-invoked on
every selection even though the reload attribute is never set — two
selections with two failures give two invocations, refuting "at most once
across any sequence of selection events unless reload is set". -/
theorem claim_C5_counterexample :
    (∀ s ∈ [(⟨false, .failure (.str "x")⟩ : SelectStep),
            ⟨false, .failure (.str "x")⟩], s.reload = false) ∧
    (runSelections elItem
        [⟨false, .failure (.str "x")⟩, ⟨false, .failure (.str "x")⟩]).2 = 2 ∧
    ¬ (runSelections elItem
        [⟨false, .failure (.str "x")⟩, ⟨false, .failure (.str "x")⟩]).2 ≤ 1 := by
  refine ⟨by decide, by decide, by decide⟩

/-- C5 amended: once a document is recorded on the item (`pageDoc` set),
any sequence of selections with the reload attribute unset performs zero
factory invocations and keeps the recorded document, and a selection with
the reload attribute set invokes the factory exactly once more; a
selection whose invocation fails or resolves null records no document, so
the at-most-once bound only holds from the moment a document is
recorded. -/
theorem claim_C5_amended :
    (∀ (el : MenuItemEl) (steps : List SelectStep) (d : Nat),
      el.pageDoc = some d → (∀ s ∈ steps, s.reload = false) →
      (runSelections el steps).2 = 0 ∧
      (runSelections el steps).1.pageDoc = some d) ∧
    (∀ (el : MenuItemEl) (out : PageOutcomeM) (d : Nat),
      el.pageDoc = some d → el.nodeName = "menuitem" → el.hasPage = true →
      (onMenuItemSelect { el with reload := true } out).invocations = 1) := by
  constructor
  · intro el steps d hd hall
    exact foldl_selStep_cached steps el 0 d hd hall
  · intro el out d hd hn hp
    cases out with
    | success o => cases o <;> simp [onMenuItemSelect, hd, hn, hp]
    | failure e => simp [onMenuItemSelect, hd, hn, hp]

/-- C5 amended witness: a cached item ignores a reload-less selection with
a failing factory, and a reload selection invokes exactly once. -/
theorem claim_C5_amended_witness :
    (runSelections elCached [⟨false, .failure (.str "x")⟩]).2 = 0 ∧
    (onMenuItemSelect { elCached with reload := true }
        (.success (some 9))).invocations = 1 :=
  ⟨(claim_C5_amended.1 elCached [⟨false, .failure (.str "x")⟩] 7 rfl
      (by decide)).1,
   claim_C5_amended.2 elCached (.success (some 9)) 7 rfl rfl rfl⟩

/-!
Menu module model (the unnamed menu source file). The module holds a
single document instance created at load time (`Parser.dom(docStr)`),
a `created` flag, mutable default options, and the menu bar /
menuBarTemplate elements whose attributes `create` sets. The exported
`created` property has a getter returning the flag and a setter whose
body is empty, so assigning to it discards the value.
-/

/-- A menu item configuration entry (`items` of the menu options); only
the presence of a usable `id` affects whether `addItem` adds it. -/
structure ItemCfg where
  id : String
deriving DecidableEq, Repr

/-- The menu module's default options object. -/
structure MenuOptionsM where
  attributes : List (String × String)
  rootTemplateAttributes : List (String × String)
  items : List ItemCfg
  loadingMessage : String
  errorMessage : String
deriving DecidableEq, Repr

/-- A partial options object passed to `create` (absent keys are not
assigned by `_.assign`). -/
structure MenuPartial where
  attributes : Option (List (String × String))
  rootTemplateAttributes : Option (List (String × String))
  items : Option (List ItemCfg)
  loadingMessage : Option String
  errorMessage : Option String
deriving DecidableEq, Repr

/-- `_.assign(defaults, cfg)`: keys present in `cfg` overwrite. -/
def assignMenu (d : MenuOptionsM) (cfg : MenuPartial) : MenuOptionsM :=
  { attributes := cfg.attributes.getD d.attributes
    rootTemplateAttributes :=
      cfg.rootTemplateAttributes.getD d.rootTemplateAttributes
    items := cfg.items.getD d.items
    loadingMessage := cfg.loadingMessage.getD d.loadingMessage
    errorMessage := cfg.errorMessage.getD d.errorMessage }

/-- `el.setAttribute(name, value)` on an attribute store. -/
def setAttr (attrs : List (String × String)) (k v : String) :
    List (String × String) :=
  if attrs.any (fun p => p.1 == k) then
    attrs.map (fun p => if p.1 == k then (k, v) else p)
  else attrs ++ [(k, v)]

/-- `setAttributes(el, attributes)`: iterate and set each pair. -/
def setAttrsList (attrs kvs : List (String × String)) :
    List (String × String) :=
  kvs.foldl (fun a p => setAttr a p.1 p.2) attrs

/-- The module-level menu document instance (created once at load). -/
def menuDoc : Nat := 0

/-- The menu module's mutable state: the `created` flag, the defaults
object, the attributes of the menuBar and menuBarTemplate elements of the
single menu document, and the ids of the added menu items. -/
structure MenuState where
  created : Bool
  menuDefaults : MenuOptionsM
  barAttrs : List (String × String)
  tplAttrs : List (String × String)
  itemIds : List String
deriving DecidableEq, Repr

/-- menu `create(cfg)`: when `created` is already true, warn and return
`undefined` without touching anything; otherwise assign `cfg` onto the
defaults, set menuBar and menuBarTemplate attributes, add every item with
a usable id (`addItem` skips an item whose id is falsy), set `created`,
and return the menu document. -/
def menuCreate (st : MenuState) (cfg : MenuPartial) :
    MenuState × Option Nat :=
  if st.created then (st, none)
  else
    let d := assignMenu st.menuDefaults cfg
    ({ created := true
       menuDefaults := d
       barAttrs := setAttrsList st.barAttrs d.attributes
       tplAttrs := setAttrsList st.tplAttrs d.rootTemplateAttributes
       itemIds := st.itemIds
           ++ (d.items.filter (fun i => i.id != "")).map (fun i => i.id) },
     some menuDoc)

/-- An empty options object (`create()` with the default parameter). -/
def emptyMenuPartial : MenuPartial := ⟨none, none, none, none, none⟩

/-- menu `get()`: auto-create when not yet created, then return the
module's single document instance. -/
def menuGet (st : MenuState) : MenuState × Nat :=
  if !st.created then ((menuCreate st emptyMenuPartial).1, menuDoc)
  else (st, menuDoc)

/-- The exported `created` setter: its body is empty, so the assigned
value is discarded and the state is unchanged. -/
def setCreatedMenu (st : MenuState) (_v : Bool) : MenuState := st

/-- C10: once the menu is created, every further `create` call is a no-op
returning no document, with no attributes set and no items added; `get`
returns the same single document instance on every call, auto-creating
only when not yet created; and the exposed `created` flag can never be
reset through the module's interface because its setter discards the
assigned value. -/
theorem claim_C10 :
    (∀ (st : MenuState) (cfg : MenuPartial), st.created = true →
      menuCreate st cfg = (st, none)) ∧
    (∀ st : MenuState, (menuGet st).2 = menuDoc) ∧
    (∀ st : MenuState, st.created = true → menuGet st = (st, menuDoc)) ∧
    (∀ st : MenuState, (menuGet st).1.created = true) ∧
    (∀ (st : MenuState) (v : Bool), setCreatedMenu st v = st) := by
  refine ⟨?_, ?_, ?_, ?_, ?_⟩
  · intro st cfg h
    simp [menuCreate, h]
  · intro st
    by_cases h : st.created <;> simp [menuGet, h]
  · intro st h
    simp [menuGet, h]
  · intro st
    by_cases h : st.created <;> simp [menuGet, menuCreate, h]
  · intro st _v
    rfl

/-- C10 witness: a created menu state ignores a further `create` with new
attributes, `get` returns the same document leaving the state alone, and
assigning the `created` flag is discarded. -/
theorem claim_C10_witness :
    menuCreate ⟨true, ⟨[], [], [], "", ""⟩, [], [], []⟩
        ⟨some [("a", "b")], none, some [⟨"x"⟩], none, none⟩
      = (⟨true, ⟨[], [], [], "", ""⟩, [], [], []⟩, none) ∧
    menuGet ⟨true, ⟨[], [], [], "", ""⟩, [], [], []⟩
      = (⟨true, ⟨[], [], [], "", ""⟩, [], [], []⟩, menuDoc) ∧
    setCreatedMenu ⟨true, ⟨[], [], [], "", ""⟩, [], [], []⟩ false
      = ⟨true, ⟨[], [], [], "", ""⟩, [], [], []⟩ :=
  ⟨claim_C10.1 _ _ rfl, claim_C10.2.2.1 _ rfl, claim_C10.2.2.2.2 _ false⟩
